import Mathlib

set_option maxHeartbeats 1000000

/- Shallow embedding of BAC0/core/io/Read.py and BAC0/core/io/Write.py.

   The request/response logic of the two source files is translated
   line by line.  External bacpypes collaborators (the datatype
   registry `get_datatype`, `get_object_class`, the primitive value
   constructors, `Any.cast_in` / `Any.cast_out`, and the
   reject/abort reason enumerations) are modelled explicitly as data
   carried in a context structure or as small total functions whose
   behaviour follows the bacpypes library the source imports.
   The asynchronous IOCB transport is modelled as a device function
   from a call counter and a request to a reply; each issued request
   increments the counter. -/

/-- Kinds of bacpypes primitive (Atomic) datatypes that the source
branches on (`Integer`, `Real`, `Unsigned`, `CharacterString`, ...). -/
inductive AtomicKind where
  | integer
  | unsigned
  | real
  | double
  | boolean
  | characterString
  | enumerated
  | null
deriving DecidableEq, Repr

/-- Resolved datatype of an (object type, property) pair, as returned by the
bacpypes registry: an atomic primitive, an `ArrayOf` type with its
`subtype`, or some composite (sequence/choice) class. -/
inductive Datatype where
  | atomic (k : AtomicKind)
  | array (subtype : Datatype)
  | composite (name : String)
deriving DecidableEq, Repr

/-- Plain Python values produced by decoding a BACnet application value. -/
inductive Prim where
  | pint (n : Int)
  | preal (q : Rat)
  | pstr (s : String)
  | pbool (b : Bool)
  | pnull
deriving DecidableEq, Repr

/-- Python exceptions and domain errors raised by the source
(`TypeError`, `ValueError`, `NameError` for an unbound name, the
IOExceptions classes) plus an out-of-fuel marker for the recursion
bound of the shallow embedding. -/
inductive PyErr where
  | typeError (msg : String)
  | valueError (msg : String)
  | indexError
  | nameError (unbound : String)
  | decodingError
  | noResponseFromController (msg : String)
  | unrecognizedService
  | segmentationNotSupported
  | applicationNotStarted
  | runtimeError (msg : String)
  | outOfFuel
deriving DecidableEq, Repr

/-- Object type as used by the source after token parsing: either a symbolic
name or a numeric code (`if obj_type.isdigit(): obj_type = int(obj_type)`). -/
inductive ObjType where
  | named (s : String)
  | code (n : Nat)
deriving DecidableEq, Repr

/-- Property identifier: symbolic name or numeric code
(`if prop_id.isdigit(): prop_id = int(prop_id)`). -/
inductive PropId where
  | named (s : String)
  | code (n : Nat)
deriving DecidableEq, Repr

/-- A BACnet `Any` payload: the application tag it was encoded with and the
primitive it carries.  `cast_out` succeeds exactly when asked for the
datatype the payload was encoded with, as in bacpypes. -/
structure EncodedValue where
  kind : Datatype
  prim : Prim
deriving DecidableEq, Repr

/-- Modelled from bacpypes: `Any.cast_out(klass)` decodes the stored tag list
as `klass`, raising a decoding error on a tag mismatch. -/
def cast_out (pv : EncodedValue) (dt : Datatype) : Except PyErr Prim :=
  if pv.kind = dt then .ok pv.prim else .error .decodingError

/-- Result of `find_reason`: a symbolic reason string, or the raw numeric
code when no symbolic name matches (the Python function returns either a
`str` or an `int`). -/
inductive Reason where
  | name (s : String)
  | code (n : Nat)
deriving DecidableEq, Repr

/-- Render a reason the way `"%s" % reason` does in the source. -/
def reasonStr : Reason → String
  | .name s => s
  | .code n => toString n

/-- Modelled from bacpypes: `RejectReason.enumerations` (name to code). -/
def rejectReasonEnumerations : List (String × Nat) :=
  [("other", 0), ("bufferOverflow", 1), ("inconsistentParameters", 2),
   ("invalidParameterDataType", 3), ("invalidTag", 4),
   ("missingRequiredParameter", 5), ("parameterOutOfRange", 6),
   ("tooManyArguments", 7), ("undefinedEnumeration", 8),
   ("unrecognizedService", 9)]

/-- Modelled from bacpypes: `AbortReason.enumerations` (name to code). -/
def abortReasonEnumerations : List (String × Nat) :=
  [("other", 0), ("bufferOverflow", 1), ("invalidApduInThisState", 2),
   ("preemptedByHigherPriorityTask", 3), ("segmentationNotSupported", 4),
   ("securityError", 5), ("insufficientSecurity", 6)]

/-- Failure APDU delivered on `iocb.ioError`: a reject or abort PDU carrying
`apduAbortRejectReason`, or an application Error with its optional
error-class and error-code fields. -/
inductive ErrorAPDU where
  | reject (code : Nat)
  | abort (code : Nat)
  | appError (errorClass : Option String) (errorCode : Option String)
deriving DecidableEq, Repr

/-- Python truthiness of an optional string field (`None` and the empty
string are falsy). -/
def pyTruthyStr : Option String → Bool
  | none => false
  | some s => !s.isEmpty

/-- The `[k for k, v in reasons.items() if v == code][0]` lookup with its
`except IndexError: return code` fallback. -/
def lookupReason (reasons : List (String × Nat)) (code : Nat) : Reason :=
  match reasons.find? (fun kv => kv.2 = code) with
  | some kv => .name kv.1
  | none => .code code

/-- Embedding of `find_reason` (Read.py lines 377-393).  Note that in the
application-error branch without both fields the source executes
`self.log_warning(...)` inside a module-level function, where the name
`self` is unbound: Python raises `NameError` there before the
`return 'UnKnown Error...'` line can run. -/
def find_reason (apdu : ErrorAPDU) : Except PyErr Reason :=
  match apdu with
  | .reject code => .ok (lookupReason rejectReasonEnumerations code)
  | .abort code => .ok (lookupReason abortReasonEnumerations code)
  | .appError errorClass errorCode =>
      if pyTruthyStr errorCode && pyTruthyStr errorClass then
        .ok (.name (errorCode.getD ""))
      else
        .error (.nameError "self")

/-- Python `str.isdigit()` for the ASCII tokens the source handles. -/
def pyIsdigit (s : String) : Bool :=
  !s.toList.isEmpty && s.toList.all (·.isDigit)

/-- Accumulator pass over a digit list; `none` on a non-digit character. -/
def natOfDigitList : List Char → Nat → Option Nat
  | [], acc => some acc
  | c :: rest, acc =>
      if c.isDigit then natOfDigitList rest (acc * 10 + (c.toNat - 48))
      else none

/-- Numeric value of an all-digit token. -/
def natOfDigits (s : String) : Nat :=
  (natOfDigitList s.toList 0).getD 0

/-- Python `int(token)`: parse an optionally signed decimal literal or raise
`ValueError`. -/
def pyIntOfString (s : String) : Except PyErr Int :=
  match s.toList with
  | [] => .error (.valueError "invalid literal for int()")
  | '-' :: rest =>
      match rest, natOfDigitList rest 0 with
      | _ :: _, some n => .ok (-(n : Int))
      | _, _ => .error (.valueError "invalid literal for int()")
  | l =>
      match natOfDigitList l 0 with
      | some n => .ok (n : Int)
      | none => .error (.valueError "invalid literal for int()")

/-- Whitespace tokenizer worker: current reversed token, remaining input. -/
def pySplitAux : List Char → List Char → List String
  | [], cur => if cur.isEmpty then [] else [String.mk cur.reverse]
  | c :: rest, cur =>
      if c = ' ' then
        if cur.isEmpty then pySplitAux rest []
        else String.mk cur.reverse :: pySplitAux rest []
      else pySplitAux rest (c :: cur)

/-- Python `args.split()`: split on whitespace, dropping empty pieces. -/
def pySplit (s : String) : List String :=
  pySplitAux s.toList []

/-- Token parsing shared by the builders:
`if tok.isdigit(): tok = int(tok)` applied to an object type. -/
def parseObjTypeTok (tok : String) : ObjType :=
  if pyIsdigit tok then .code (natOfDigits tok) else .named tok

/-- Token parsing shared by the builders:
`if prop_id.isdigit(): prop_id = int(prop_id)`. -/
def parsePropIdTok (tok : String) : PropId :=
  if pyIsdigit tok then .code (natOfDigits tok) else .named tok

/-- The `ReadPropertyRequest` the source assembles. -/
structure ReadPropertyRequestData where
  objectIdentifier : ObjType × Int
  propertyIdentifier : PropId
  propertyArrayIndex : Option Int
  pduDestination : String
deriving DecidableEq, Repr

/-- A `PropertyReference` inside a read-access specification. -/
structure PropRef where
  propertyIdentifier : String
  propertyArrayIndex : Option Int
deriving DecidableEq, Repr

/-- A `ReadAccessSpecification` of a ReadPropertyMultiple request. -/
structure ReadAccessSpec where
  objectIdentifier : ObjType × Int
  listOfPropertyReferences : List PropRef
deriving DecidableEq, Repr

/-- The `ReadPropertyMultipleRequest` the source assembles. -/
structure RPMRequestData where
  pduDestination : String
  listOfReadAccessSpecs : List ReadAccessSpec
deriving DecidableEq, Repr

/-- One property result inside a `ReadAccessResult` of a
ReadPropertyMultiple acknowledgement; `readResult` carries either a
property-access error or a property value. -/
structure ReadAccessResultElement where
  propertyIdentifier : PropId
  propertyArrayIndex : Option Int
  propertyAccessError : Option String
  propertyValue : EncodedValue
deriving DecidableEq, Repr

/-- One per-object group of a ReadPropertyMultiple acknowledgement. -/
structure ReadAccessResult where
  objectIdentifier : ObjType × Int
  listOfResults : List ReadAccessResultElement
deriving DecidableEq, Repr

/-- Data of a `ReadPropertyACK`. -/
structure ReadPropertyACKData where
  objectIdentifier : ObjType × Int
  propertyIdentifier : PropId
  propertyArrayIndex : Option Int
  propertyValue : EncodedValue
deriving DecidableEq, Repr

/-- APDU delivered on `iocb.ioResponse`. -/
inductive SuccessAPDU where
  | readPropertyACK (ack : ReadPropertyACKData)
  | readPropertyMultipleACK (listOfReadAccessResults : List ReadAccessResult)
  | simpleAckPDU
  | otherPDU (tag : String)
deriving DecidableEq, Repr

/-- A request submitted to the transport. -/
inductive Request where
  | readProperty (r : ReadPropertyRequestData)
  | readPropertyMultiple (r : RPMRequestData)
deriving DecidableEq, Repr

/-- The transport resolves each request into exactly one of a success
response or a failure (`iocb.ioResponse` / `iocb.ioError`). -/
inductive DeviceReply where
  | response (apdu : SuccessAPDU)
  | failure (apdu : ErrorAPDU)
deriving DecidableEq, Repr

/-- Execution context: the stack-started flag, the external datatype
registry (`get_datatype`), object-class and property-name registries,
and the transport, modelled as a device replying to the n-th issued
request. -/
structure Ctx where
  started : Bool
  get_datatype : ObjType → PropId → Nat → Option Datatype
  known_object_type : String → Bool
  isPropertyName : String → Bool
  dev : Nat → Request → DeviceReply

/-- Embedding of `ReadProperty.build_rp_request` (Read.py lines 275-305).
A fifth token overrides the `arr_index` argument. -/
def build_rp_request (ctx : Ctx) (args : List String) (arr_index : Option Int)
    (vendor_id : Nat) : Except PyErr ReadPropertyRequestData :=
  match args with
  | addr :: obj_type_tok :: obj_inst_tok :: prop_tok :: rest =>
      match (if pyIsdigit obj_type_tok then
               Except.ok (ObjType.code (natOfDigits obj_type_tok))
             else if ctx.known_object_type obj_type_tok then
               Except.ok (ObjType.named obj_type_tok)
             else
               Except.error (PyErr.valueError "unknown object type")) with
      | .error e => .error e
      | .ok obj_type =>
        match pyIntOfString obj_inst_tok with
        | .error e => .error e
        | .ok obj_inst =>
          let prop_id := parsePropIdTok prop_tok
          match ctx.get_datatype obj_type prop_id vendor_id with
          | none => .error (.valueError "invalid property for object type")
          | some _ =>
            let request : ReadPropertyRequestData :=
              { objectIdentifier := (obj_type, obj_inst)
                propertyIdentifier := prop_id
                propertyArrayIndex := arr_index
                pduDestination := addr }
            if rest.length = 1 then
              match pyIntOfString (rest.headD "") with
              | .error e => .error e
              | .ok idx => .ok { request with propertyArrayIndex := some idx }
            else
              .ok request
  | _ => .error .indexError

/-- The array-vs-scalar decoding rule shared by `read` (Read.py lines
115-121) and `readMultiple` (lines 245-252): an array datatype with an
explicit index decodes index 0 as `Unsigned` and other indices as the
array's `subtype`; everything else decodes with the plain datatype. -/
def decodePropertyValue (datatype : Datatype) (propertyArrayIndex : Option Int)
    (pv : EncodedValue) : Except PyErr Prim :=
  match datatype, propertyArrayIndex with
  | .array subtype, some idx =>
      if idx = 0 then cast_out pv (.atomic .unsigned)
      else cast_out pv subtype
  | .array _, none => cast_out pv datatype
  | _, _ => cast_out pv datatype

/-- Success branch of `read` for a `ReadPropertyACK` (Read.py lines
107-124): resolve the datatype of the acknowledged object/property pair,
raising `TypeError("unknown datatype")` when the registry has none, then
apply the decoding rule. -/
def interpretReadACK (ctx : Ctx) (vendor_id : Nat) (apdu : ReadPropertyACKData) :
    Except PyErr Prim :=
  match ctx.get_datatype apdu.objectIdentifier.1 apdu.propertyIdentifier vendor_id with
  | none => .error (.typeError "unknown datatype")
  | some datatype => decodePropertyValue datatype apdu.propertyArrayIndex apdu.propertyValue

/-- Python `range(1, n+1)` used by `_split_the_read_request`. -/
def range1to (n : Int) : List Int :=
  (List.range n.toNat).map (fun j : Nat => (j : Int) + 1)

/-- The value a call to `read` hands back: a decoded primitive, or the list
reassembled by the segmentation fallback (whose elements are themselves
`read` results, hence possibly `None` or nested lists). -/
inductive ReadValue where
  | prim (p : Prim)
  | list (l : List (Option ReadValue))

/-- The `for i in range(1, nmbr_obj+1): objlist.append(self.read(args,
arr_index=i))` loop of `_split_the_read_request`, abstracted over the
recursive call; threads the transport call counter. -/
def splitLoop (readFn : Nat → String → Option Int → Except PyErr (Option ReadValue × Nat))
    (args : String) (l : List Int)
    (init : Except PyErr (List (Option ReadValue) × Nat)) :
    Except PyErr (List (Option ReadValue) × Nat) :=
  l.foldl (fun acc i =>
    match acc with
    | .error e => .error e
    | .ok (objlist, kk) =>
        match readFn kk args (some i) with
        | .error e => .error e
        | .ok (v, kk2) => .ok (objlist ++ [v], kk2)) init

/-- Body of `ReadProperty._split_the_read_request` (Read.py lines 145-161),
abstracted over the recursive call to `read`: read array index 0 for the
element count, then read indices `1..count` in order.  A count that is not
an `int` makes the Python `range(1, nmbr_obj+1)` raise `TypeError`. -/
def split_body (readFn : Nat → String → Option Int → Except PyErr (Option ReadValue × Nat))
    (k : Nat) (args : String) : Except PyErr (Option ReadValue × Nat) :=
  match readFn k args (some 0) with
  | .error e => .error e
  | .ok (nmbr_obj, k1) =>
      match nmbr_obj with
      | some (.prim (.pint n)) =>
          match splitLoop readFn args (range1to n) (.ok ([], k1)) with
          | .error e => .error e
          | .ok (objlist, k2) => .ok (some (.list objlist), k2)
      | _ => .error (.typeError "unsupported operand type(s) for +")

/-- Embedding of `ReadProperty.read` (Read.py lines 58-143).  `fuel` bounds
the recursion through the segmentation fallback; the `Nat` argument `k`
is the transport call counter, returned incremented alongside the value.
A successful non-ACK response returns `None`; a failure classified as
`segmentationNotSupported` runs the fallback; `unknownProperty` is logged
and then, like every other remaining reason, raised as
`NoResponseFromController`. -/
def read (ctx : Ctx) (vendor_id : Nat) :
    Nat → Nat → String → Option Int → Except PyErr (Option ReadValue × Nat)
  | 0, _, _, _ => .error .outOfFuel
  | f + 1, k, args, arr_index =>
      if ctx.started = false then .error .applicationNotStarted else
      match build_rp_request ctx (pySplit args) arr_index vendor_id with
      | .error e => .error e
      | .ok request =>
        match ctx.dev k (.readProperty request) with
        | .response apdu =>
            match apdu with
            | .readPropertyACK ack =>
                match interpretReadACK ctx vendor_id ack with
                | .error e => .error e
                | .ok value => .ok (some (.prim value), k + 1)
            | _ => .ok (none, k + 1)
        | .failure apdu =>
            match find_reason apdu with
            | .error e => .error e
            | .ok reason =>
                if reason = .name "segmentationNotSupported" then
                  split_body (fun k' a i => read ctx vendor_id f k' a i) (k + 1) args
                else
                  .error (.noResponseFromController
                    ("APDU Abort Reason : " ++ reasonStr reason))
termination_by structural fuel _ _ _ => fuel

/-- `ReadProperty._split_the_read_request` as a named entry point: the
fallback layer entered by `read` on a `segmentationNotSupported` reason. -/
def split_the_read_request (ctx : Ctx) (vendor_id : Nat) (fuel k : Nat)
    (args : String) : Except PyErr (Option ReadValue × Nat) :=
  split_body (fun k' a i => read ctx vendor_id fuel k' a i) k args

/-- Inner property loop of `readMultiple` (Read.py lines 216-255) over one
group's `listOfResults`, carrying the `values` accumulator.  A property
whose `readResult` has a `propertyAccessError` is logged and skipped; the
first property that decodes successfully makes the source `return values`
(the early return inside the loop), modelled as `Sum.inr`; `Sum.inl` means
the loop finished without returning. -/
def processElements (ctx : Ctx) (objType : ObjType) :
    List ReadAccessResultElement → List Prim → Except PyErr (List Prim ⊕ List Prim)
  | [], values => .ok (.inl values)
  | element :: rest, values =>
      if element.propertyAccessError.isSome then
        processElements ctx objType rest values
      else
        match ctx.get_datatype objType element.propertyIdentifier 0 with
        | none => .error (.typeError "unknown datatype")
        | some datatype =>
            match decodePropertyValue datatype element.propertyArrayIndex
                element.propertyValue with
            | .error e => .error e
            | .ok value => .ok (.inr (values ++ [value]))

/-- Outer loop of `readMultiple` over `apdu.listOfReadAccessResults`
(Read.py lines 209-255).  When every group is traversed without the inner
early return, the function falls off both loops and (with `ioError` unset)
returns `None`. -/
def processResults (ctx : Ctx) :
    List ReadAccessResult → List Prim → Except PyErr (Option (List Prim))
  | [], _values => .ok none
  | result :: rest, values =>
      match processElements ctx result.objectIdentifier.1 result.listOfResults values with
      | .error e => .error e
      | .ok (.inr vs) => .ok (some vs)
      | .ok (.inl vs) => processResults ctx rest vs

/-- Inner `while` loop of `build_rpm_request` (Read.py lines 329-352):
consume property tokens (a token that is not a recognized property name
ends the group), validating the datatype except for the
`all`/`required`/`optional` wildcards, and capture an immediately
following all-digit token as the property's array index.  Returns the
references and the unconsumed tokens.  The `Nat` argument bounds the loop
(each iteration consumes at least one token, so the caller's bound of one
more than the token count can never run out). -/
def parsePropRefs (ctx : Ctx) (obj_type : ObjType) :
    Nat → List String → List PropRef → Except PyErr (List PropRef × List String)
  | 0, _, _ => .error .outOfFuel
  | _ + 1, [], acc => .ok (acc.reverse, [])
  | fuel + 1, tok :: rest, acc =>
      if !ctx.isPropertyName tok then .ok (acc.reverse, tok :: rest)
      else
        match (if tok = "all" ∨ tok = "required" ∨ tok = "optional" then
                 Except.ok ()
               else
                 match ctx.get_datatype obj_type (.named tok) 0 with
                 | some _ => Except.ok ()
                 | none => Except.error (PyErr.valueError
                     "invalid property for object type")) with
        | .error e => .error e
        | .ok _ =>
            match rest with
            | idxTok :: rest2 =>
                if pyIsdigit idxTok then
                  parsePropRefs ctx obj_type fuel rest2
                    ({ propertyIdentifier := tok,
                       propertyArrayIndex := some (natOfDigits idxTok) } :: acc)
                else
                  parsePropRefs ctx obj_type fuel (idxTok :: rest2)
                    ({ propertyIdentifier := tok, propertyArrayIndex := none } :: acc)
            | [] =>
                parsePropRefs ctx obj_type fuel []
                  ({ propertyIdentifier := tok, propertyArrayIndex := none } :: acc)

/-- Outer `while` loop of `build_rpm_request` (Read.py lines 316-362):
consume an object type and instance, then the group's properties; an
object group with no properties raises
`ValueError("provide at least one property")`.  `fuel` bounds the loop;
the wrapper supplies more than enough. -/
def parseAccessSpecs (ctx : Ctx) :
    Nat → List String → List ReadAccessSpec → Except PyErr (List ReadAccessSpec)
  | 0, _, _ => .error .outOfFuel
  | _ + 1, [], acc => .ok acc.reverse
  | fuel + 1, objTok :: rest, acc =>
      match (if pyIsdigit objTok then
               Except.ok (ObjType.code (natOfDigits objTok))
             else if ctx.known_object_type objTok then
               Except.ok (ObjType.named objTok)
             else
               Except.error (PyErr.valueError "unknown object type")) with
      | .error e => .error e
      | .ok obj_type =>
          match rest with
          | [] => .error .indexError
          | instTok :: rest2 =>
              match pyIntOfString instTok with
              | .error e => .error e
              | .ok obj_inst =>
                  match parsePropRefs ctx obj_type (rest2.length + 1) rest2 [] with
                  | .error e => .error e
                  | .ok (prop_reference_list, leftover) =>
                      if prop_reference_list = [] then
                        .error (.valueError "provide at least one property")
                      else
                        parseAccessSpecs ctx fuel leftover
                          ({ objectIdentifier := (obj_type, obj_inst),
                             listOfPropertyReferences := prop_reference_list } :: acc)

/-- Embedding of `ReadProperty.build_rpm_request` (Read.py lines 307-374). -/
def build_rpm_request (ctx : Ctx) (args : List String) : Except PyErr RPMRequestData :=
  match args with
  | [] => .error .indexError
  | addr :: rest =>
      match parseAccessSpecs ctx (rest.length + 1) rest [] with
      | .error e => .error e
      | .ok specs =>
          if specs = [] then
            .error (.runtimeError "at least one read access specification required")
          else
            .ok { pduDestination := addr, listOfReadAccessSpecs := specs }

/-- Embedding of `ReadProperty.readMultiple` (Read.py lines 163-273).
A successful non-ACK response returns `None`; on a failure,
`unrecognizedService` and `segmentationNotSupported` are raised, while
`unknownProperty` (logged) and every other reason append `""` to the
`values` list and return it. -/
def readMultiple (ctx : Ctx) (k : Nat) (argsStr : String) :
    Except PyErr (Option (List Prim) × Nat) :=
  if ctx.started = false then .error .applicationNotStarted else
  match build_rpm_request ctx (pySplit argsStr) with
  | .error e => .error e
  | .ok request =>
    match ctx.dev k (.readPropertyMultiple request) with
    | .response apdu =>
        match apdu with
        | .readPropertyMultipleACK listOfReadAccessResults =>
            match processResults ctx listOfReadAccessResults [] with
            | .error e => .error e
            | .ok v => .ok (v, k + 1)
        | _ => .ok (none, k + 1)
    | .failure apdu =>
        match find_reason apdu with
        | .error e => .error e
        | .ok reason =>
            if reason = .name "unrecognizedService" then
              .error .unrecognizedService
            else if reason = .name "segmentationNotSupported" then
              .error .segmentationNotSupported
            else if reason = .name "unknownProperty" then
              .ok (some [.pstr ""], k + 1)
            else
              .ok (some [.pstr ""], k + 1)

/-- Python runtime values the `value` variable of `build_wp_request` passes
through: the raw token string, the results of `int(...)` / `float(...)`,
the `Null()` sentinel, and a constructed bacpypes primitive or constructed
object instance (`datatype(value)`). -/
inductive PyVal where
  | str (s : String)
  | int (n : Int)
  | real (q : Rat)
  | null
  | wrapped (dt : Datatype) (p : Prim)
deriving DecidableEq, Repr

/-- Fractional part helper for the decimal parser: digits after the point. -/
def parseDecimalRatNonneg (s : String) : Option Rat :=
  match (s.toList.splitOn '.') with
  | [a] => (natOfDigitList a 0).map (fun n => (n : Rat))
  | [a, b] =>
      match natOfDigitList a 0, natOfDigitList b 0 with
      | some n, some m => some ((n : Rat) + (m : Rat) / ((10 : Rat) ^ b.length))
      | _, _ => none
  | _ => none

/-- Python `float(token)` on a decimal literal (modelled without exponent
forms, which the source never produces). -/
def parseDecimalRat (s : String) : Option Rat :=
  match s.toList with
  | '-' :: rest => (parseDecimalRatNonneg (String.mk rest)).map Neg.neg
  | _ => parseDecimalRatNonneg s

/-- Python `int(value)` applied to a runtime value: parse a string, pass an
int through, truncate a float toward zero, `TypeError` otherwise. -/
def pyIntFn : PyVal → Except PyErr Int
  | .str s => pyIntOfString s
  | .int n => .ok n
  | .real q => .ok (Int.tdiv q.num q.den)
  | _ => .error (.typeError "int() argument")

/-- Python `float(value)` applied to a runtime value. -/
def pyFloatFn : PyVal → Except PyErr Rat
  | .str s =>
      match parseDecimalRat s with
      | some q => .ok q
      | none => .error (.valueError "could not convert string to float")
  | .int n => .ok (n : Rat)
  | .real q => .ok q
  | _ => .error (.typeError "float() argument")

/-- Modelled from bacpypes: the primitive constructors `Integer(arg)`,
`Unsigned(arg)`, `Real(arg)`, `CharacterString(arg)`, ... accept an
argument of the matching Python type (`Unsigned` additionally rejects
negative ints with `ValueError`) and raise
`TypeError("invalid constructor datatype")` for anything else — in
particular for a raw string passed to a numeric constructor. -/
def atomicCtor (k : AtomicKind) (v : PyVal) : Except PyErr Prim :=
  match k, v with
  | .integer, .int n => .ok (.pint n)
  | .unsigned, .int n =>
      if 0 ≤ n then .ok (.pint n) else .error (.valueError "unsigned integer less than zero")
  | .enumerated, .int n => .ok (.pint n)
  | .real, .real q => .ok (.preal q)
  | .real, .int n => .ok (.preal (n : Rat))
  | .double, .real q => .ok (.preal q)
  | .double, .int n => .ok (.preal (n : Rat))
  | .characterString, .str s => .ok (.pstr s)
  | _, _ => .error (.typeError "invalid constructor datatype")

/-- The atomic branch of `build_wp_request` (Write.py lines 122-129):
pre-parse the token for `Integer`, `Real` and `Unsigned`, then call the
primitive constructor `datatype(value)`. -/
def encodeAtomic (k : AtomicKind) (v : PyVal) : Except PyErr Prim :=
  match (match k with
         | .integer => (pyIntFn v).map PyVal.int
         | .real => (pyFloatFn v).map PyVal.real
         | .unsigned => (pyIntFn v).map PyVal.int
         | _ => .ok v) with
  | .error e => .error e
  | .ok v2 => atomicCtor k v2

/-- Modelled from bacpypes: `Any.cast_in(value)` encodes an already
constructed primitive (or `Null`) into the request's `Any` payload. -/
def cast_in (v : PyVal) : Except PyErr EncodedValue :=
  match v with
  | .null => .ok ⟨.atomic .null, .pnull⟩
  | .wrapped dt p => .ok ⟨dt, p⟩
  | _ => .error (.typeError "invalid cast_in datatype")

/-- The `WritePropertyRequest` the source assembles. -/
structure WritePropertyRequestData where
  objectIdentifier : ObjType × Int
  propertyIdentifier : PropId
  pduDestination : String
  propertyValue : EncodedValue
  propertyArrayIndex : Option Int
  priority : Option Int
deriving DecidableEq, Repr

/-- Python `isinstance(value, datatype)` for the fall-through branches of
`build_wp_request`: only an already constructed instance of exactly the
expected class (or, for an array subtype, of that subtype) passes. -/
def pyIsinstance (v : PyVal) (dt : Datatype) : Bool :=
  match v with
  | .wrapped dt2 _ => dt2 = dt
  | _ => false

/-- The value-coercion block of `build_wp_request` (Write.py lines 117-144):
`'null'` becomes `Null()`; an atomic datatype parses and wraps the token;
an array datatype with an index wraps index 0 as `Integer(value)` and
other indices as `datatype.subtype(value)` when the subtype is atomic,
requiring an instance of the subtype otherwise; anything else requires an
instance of the datatype itself.  A `None` datatype reaching
`issubclass(datatype, Atomic)` raises `TypeError` (`issubclass` needs a
class). -/
def coerceWriteValue (datatype : Option Datatype) (indx : Option Int) (value : PyVal) :
    Except PyErr PyVal :=
  if value = .str "null" then .ok .null
  else
    match datatype with
    | none => .error (.typeError "issubclass() arg 1 must be a class")
    | some dt =>
        match dt with
        | .atomic k =>
            match encodeAtomic k value with
            | .error e => .error e
            | .ok p => .ok (.wrapped (.atomic k) p)
        | .array subtype =>
            match indx with
            | some i =>
                if i = 0 then
                  match atomicCtor .integer value with
                  | .error e => .error e
                  | .ok p => .ok (.wrapped (.atomic .integer) p)
                else
                  match subtype with
                  | .atomic ks =>
                      match atomicCtor ks value with
                      | .error e => .error e
                      | .ok p => .ok (.wrapped (.atomic ks) p)
                  | _ =>
                      if pyIsinstance value subtype then .ok value
                      else .error (.typeError "invalid result datatype, expecting subtype")
            | none =>
                if pyIsinstance value dt then .ok value
                else .error (.typeError "invalid result datatype")
        | .composite _ =>
            if pyIsinstance value dt then .ok value
            else .error (.typeError "invalid result datatype")

/-- Embedding of `WriteProperty.build_wp_request` (Write.py lines 92-170). -/
def build_wp_request (ctx : Ctx) (args : List String) (vendor_id : Nat) :
    Except PyErr WritePropertyRequestData :=
  match args with
  | addr :: obj_type_tok :: obj_inst_tok :: prop_tok :: rest =>
      match rest with
      | [] => .error .indexError
      | value_tok :: rest2 =>
          let obj_type := parseObjTypeTok obj_type_tok
          match pyIntOfString obj_inst_tok with
          | .error e => .error e
          | .ok obj_inst =>
              match (match rest2.head? with
                     | some t =>
                         if t ≠ "-" then (pyIntOfString t).map some
                         else Except.ok none
                     | none => Except.ok none) with
              | .error e => .error e
              | .ok indx =>
                  match (match rest2[1]? with
                         | some t => (pyIntOfString t).map some
                         | none => Except.ok none) with
                  | .error e => .error e
                  | .ok priority =>
                      let prop_id := parsePropIdTok prop_tok
                      let datatype := ctx.get_datatype obj_type prop_id vendor_id
                      match coerceWriteValue datatype indx (.str value_tok) with
                      | .error e => .error e
                      | .ok value =>
                          match cast_in value with
                          | .error e => .error e
                          | .ok ev =>
                              .ok { objectIdentifier := (obj_type, obj_inst)
                                    propertyIdentifier := prop_id
                                    pduDestination := addr
                                    propertyValue := ev
                                    propertyArrayIndex := indx
                                    priority := priority }
  | _ => .error .indexError

/-- A transport that answers every request with an abort; used where a
scenario never reaches the device. -/
def idleDev : Nat → Request → DeviceReply := fun _ _ => .failure (.abort 0)

/-- Registry for the analogInput scenarios: `presentValue` is a plain
`Integer` and `units` an `Enumerated`. -/
def aiScalarTypes : ObjType → PropId → Nat → Option Datatype := fun ot pid _ =>
  if ot = .named "analogInput" ∧ pid = .named "presentValue" then
    some (.atomic .integer)
  else if ot = .named "analogInput" ∧ pid = .named "units" then
    some (.atomic .enumerated)
  else none

/-- Registry for the array scenarios: `presentValue` of an analogInput is
(artificially) an array of `Integer`. -/
def aiArrayTypes : ObjType → PropId → Nat → Option Datatype := fun ot pid _ =>
  if ot = .named "analogInput" ∧ pid = .named "presentValue" then
    some (.array (.atomic .integer))
  else none

/-- Context for the readMultiple early-return scenario: the device
acknowledges a single analogInput group whose two properties both decode
successfully. -/
def ctxC1 : Ctx where
  started := true
  get_datatype := aiScalarTypes
  known_object_type := fun s => s = "analogInput"
  isPropertyName := fun s => s = "presentValue" ∨ s = "units"
  dev := fun _ req =>
    match req with
    | .readPropertyMultiple _ =>
        .response (.readPropertyMultipleACK
          [⟨(.named "analogInput", 1),
            [⟨.named "presentValue", none, none, ⟨.atomic .integer, .pint 72⟩⟩,
             ⟨.named "units", none, none, ⟨.atomic .enumerated, .pint 62⟩⟩]⟩])
    | _ => .failure (.abort 0)

/-- The acknowledgement the five-token-override device gives for the
literal index 3 carried by the command string. -/
def ackIdx3C2 : ReadPropertyACKData :=
  ⟨(.named "analogInput", 1), .named "presentValue", some 3,
    ⟨.atomic .integer, .pint 7⟩⟩

/-- The acknowledgement the same device would give for an index-0 read:
an element count of 2. -/
def ackIdx0C2 : ReadPropertyACKData :=
  ⟨(.named "analogInput", 1), .named "presentValue", some 0,
    ⟨.atomic .unsigned, .pint 2⟩⟩

/-- The index-0 request the fallback is supposed to issue. -/
def reqIdx0C2 : ReadPropertyRequestData :=
  ⟨(.named "analogInput", 1), .named "presentValue", some 0, "2:5"⟩

/-- Context for the five-token fallback scenario: the first request aborts
with segmentationNotSupported, an index-0 request would be answered with
element count 2, and any other request is acknowledged with the value 7. -/
def ctxC2ce : Ctx where
  started := true
  get_datatype := aiArrayTypes
  known_object_type := fun s => s = "analogInput"
  isPropertyName := fun _ => false
  dev := fun n req =>
    match req with
    | .readProperty r =>
        if r.propertyArrayIndex = some 0 then .response (.readPropertyACK ackIdx0C2)
        else if n = 0 then .failure (.abort 4)
        else .response (.readPropertyACK ackIdx3C2)
    | _ => .failure (.abort 0)

/-- Context for the four-token fallback scenario: segmentation is refused
for the plain read, index 0 answers the element count 2, and index `i`
answers the value `100 + i`. -/
def ctxC2w : Ctx where
  started := true
  get_datatype := aiArrayTypes
  known_object_type := fun s => s = "analogInput"
  isPropertyName := fun _ => false
  dev := fun _ req =>
    match req with
    | .readProperty r =>
        if r.propertyArrayIndex = some 0 then
          .response (.readPropertyACK
            ⟨(.named "analogInput", 1), .named "presentValue", some 0,
              ⟨.atomic .unsigned, .pint 2⟩⟩)
        else if r.propertyArrayIndex = none then .failure (.abort 4)
        else
          .response (.readPropertyACK
            ⟨(.named "analogInput", 1), .named "presentValue", r.propertyArrayIndex,
              ⟨.atomic .integer, .pint (100 + (r.propertyArrayIndex.getD 0))⟩⟩)
    | _ => .failure (.abort 0)

/-- The per-index request issued in the four-token fallback scenario. -/
def reqC2w (j : Int) : ReadPropertyRequestData :=
  ⟨(.named "analogInput", 1), .named "presentValue", some j, "2:5"⟩

/-- The acknowledgement for index `i` in the four-token fallback scenario. -/
def ackC2w (i : Nat) : ReadPropertyACKData :=
  ⟨(.named "analogInput", 1), .named "presentValue", some (i : Int),
    ⟨.atomic .integer, .pint (100 + (i : Int))⟩⟩

/-- Context for the single-read decode scenario: `presentValue` resolves to
an array of `Real` and the device acknowledges index 0 with an unsigned
cardinality of 4. -/
def ctxC3w : Ctx where
  started := true
  get_datatype := fun ot pid _ =>
    if ot = .named "analogInput" ∧ pid = .named "presentValue" then
      some (.array (.atomic .real))
    else none
  known_object_type := fun s => s = "analogInput"
  isPropertyName := fun _ => false
  dev := fun _ req =>
    match req with
    | .readProperty _ =>
        .response (.readPropertyACK
          ⟨(.named "analogInput", 1), .named "presentValue", some 0,
            ⟨.atomic .unsigned, .pint 4⟩⟩)
    | _ => .failure (.abort 0)

/-- The acknowledgement delivered in the single-read decode scenario. -/
def ackC3w : ReadPropertyACKData :=
  ⟨(.named "analogInput", 1), .named "presentValue", some 0,
    ⟨.atomic .unsigned, .pint 4⟩⟩

/-- Context for the array-length write scenario: `priorityArray` of an
analogValue resolves to an array of `Real`. -/
def ctxC5 : Ctx where
  started := true
  get_datatype := fun ot pid _ =>
    if ot = .named "analogValue" ∧ pid = .named "priorityArray" then
      some (.array (.atomic .real))
    else none
  known_object_type := fun s => s = "analogValue"
  isPropertyName := fun _ => false
  dev := idleDev

/-- Context for the write/read round-trip scenario: `presentValue` of an
analogValue resolves to a plain `Integer`. -/
def ctxC6w : Ctx where
  started := true
  get_datatype := fun ot pid _ =>
    if ot = .named "analogValue" ∧ pid = .named "presentValue" then
      some (.atomic .integer)
    else none
  known_object_type := fun s => s = "analogValue"
  isPropertyName := fun _ => false
  dev := idleDev

/-- The request built in the write/read round-trip scenario. -/
def reqC6w : WritePropertyRequestData :=
  ⟨(.named "analogValue", 1), .named "presentValue", "2:5",
    ⟨.atomic .integer, .pint 100⟩, none, none⟩

/-- Context for the nested-fallback scenario: the device refuses
segmentation for the plain read and for the first index-1 read (its third
incoming request overall), answers every index-0 read with element count 1,
and acknowledges later index reads with the value 42. -/
def ctxC7ce : Ctx where
  started := true
  get_datatype := aiArrayTypes
  known_object_type := fun s => s = "analogInput"
  isPropertyName := fun _ => false
  dev := fun n req =>
    match req with
    | .readProperty r =>
        if r.propertyArrayIndex = some 0 then
          .response (.readPropertyACK
            ⟨(.named "analogInput", 1), .named "presentValue", some 0,
              ⟨.atomic .unsigned, .pint 1⟩⟩)
        else if n ≤ 2 then .failure (.abort 4)
        else
          .response (.readPropertyACK
            ⟨(.named "analogInput", 1), .named "presentValue", some 1,
              ⟨.atomic .integer, .pint 42⟩⟩)
    | _ => .failure (.abort 0)

/-- The index-1 request of the nested-fallback scenario. -/
def reqIdx1C7 : ReadPropertyRequestData :=
  ⟨(.named "analogInput", 1), .named "presentValue", some 1, "2:5"⟩

/-- Context for the unknown-property scenario: every request fails with an
application error whose error code is `unknownProperty`. -/
def ctxC8 : Ctx where
  started := true
  get_datatype := aiScalarTypes
  known_object_type := fun s => s = "analogInput"
  isPropertyName := fun s => s = "presentValue" ∨ s = "units"
  dev := fun _ _ => .failure (.appError (some "property") (some "unknownProperty"))

/-- Context for the unexpected-acknowledgement scenario: every request is
answered with a `SimpleAckPDU`, which neither read path expects. -/
def ctxC10 : Ctx where
  started := true
  get_datatype := aiScalarTypes
  known_object_type := fun s => s = "analogInput"
  isPropertyName := fun s => s = "presentValue" ∨ s = "units"
  dev := fun _ _ => .response .simpleAckPDU

lemma processElements_filter (ctx : Ctx) (ot : ObjType) :
    ∀ (l : List ReadAccessResultElement) (values : List Prim),
      processElements ctx ot l values =
        processElements ctx ot (l.filter (fun e => e.propertyAccessError.isNone)) values := by
  intro l
  induction l with
  | nil => intro values; rfl
  | cons e rest ih =>
      intro values
      cases hacc : e.propertyAccessError with
      | some s =>
          simp only [processElements, hacc, Option.isSome_some, if_true,
            List.filter_cons, Option.isNone_some, Bool.false_eq_true, if_false]
          exact ih values
      | none =>
          simp only [processElements, hacc, Option.isSome_none, Bool.false_eq_true,
            if_false, List.filter_cons, Option.isNone_none, if_true]

/-- Claim C4: a property of a ReadPropertyMultiple success response that
carries a property access error never raises: it is only logged, leaves no
entry in the returned values (its slot is absent), and processing continues
with the next property of the same group — formally, interpreting the
result groups is unchanged when every access-error-flagged element is
removed. -/
theorem c4_access_error_properties_ignored (ctx : Ctx)
    (results : List ReadAccessResult) (values : List Prim) :
    processResults ctx results values =
      processResults ctx
        (results.map (fun r =>
          { r with listOfResults :=
              r.listOfResults.filter (fun e => e.propertyAccessError.isNone) }))
        values := by
  induction results generalizing values with
  | nil => rfl
  | cons r rest ih =>
      simp only [processResults, List.map_cons]
      rw [show ({ r with listOfResults :=
            r.listOfResults.filter (fun e => e.propertyAccessError.isNone) }
              : ReadAccessResult).objectIdentifier = r.objectIdentifier from rfl]
      rw [← processElements_filter]
      cases h : processElements ctx r.objectIdentifier.1 r.listOfResults values with
      | error e => rfl
      | ok s =>
          cases s with
          | inl vs => exact ih vs
          | inr vs => rfl

/-- Claim C9: `find_reason` classifies reject and abort PDUs by their reason
code with the raw code as fallback, and an application error with both
fields by its error code; but on an application error lacking one of the
fields it does fail — the module-level function references the unbound
name `self`, so Python raises `NameError` instead of returning
`UnknownError`. -/
theorem c9_find_reason_eval :
    find_reason (.appError (some "device") none) = .error (.nameError "self")
    ∧ find_reason (.appError none (some "unknownProperty")) = .error (.nameError "self")
    ∧ find_reason (.abort 99) = .ok (.code 99)
    ∧ find_reason (.abort 4) = .ok (.name "segmentationNotSupported")
    ∧ find_reason (.reject 9) = .ok (.name "unrecognizedService")
    ∧ find_reason (.appError (some "property") (some "unknownProperty"))
        = .ok (.name "unknownProperty") :=
  ⟨rfl, rfl, rfl, rfl, rfl, rfl⟩

/-- Claim C1: `readMultiple` on a success response with one group of two
successfully decodable properties returns only the first decoded value —
the `return values` inside the inner loop makes it stop after the first
decoded property instead of traversing every property of every group
(the second conjunct shows the second property decodes fine). -/
theorem c1_early_return_eval :
    readMultiple ctxC1 0 "2:5 analogInput 1 presentValue units"
      = .ok (some [.pint 72], 1)
    ∧ cast_out ⟨.atomic .enumerated, .pint 62⟩ (.atomic .enumerated)
        = .ok (.pint 62) :=
  ⟨rfl, rfl⟩

/-- Claim C5: a write whose resolved datatype is an array with array index 0
does not encode the token as an unsigned integer: the source wraps the raw
token in the signed `Integer` constructor, which (given the string token)
raises `TypeError` — no unsigned array-length value is ever placed in the
request (the second conjunct shows the datatype is indeed an array). -/
theorem c5_array_index_zero_eval :
    build_wp_request ctxC5 ["2:5", "analogValue", "1", "priorityArray", "3", "0"] 0
      = .error (.typeError "invalid constructor datatype")
    ∧ ctxC5.get_datatype (.named "analogValue") (.named "priorityArray") 0
        = some (.array (.atomic .real)) :=
  ⟨rfl, rfl⟩

/-- Claim C8 counterexample: a single read whose failure classifies as
`unknownProperty` does not return a value — after logging the warning the
source still raises `NoResponseFromController`, so the call ends in a
raised error. -/
theorem c8_counterexample :
    read ctxC8 0 1 0 "2:5 analogInput 1 presentValue" none
      = .error (.noResponseFromController "APDU Abort Reason : unknownProperty") :=
  rfl

/-- Claim C8 (amended): on the single-read path an `unknownProperty`
failure logs a warning and then raises `NoResponseFromController`; no
value is returned (the non-fatal empty-result treatment exists only on
the read-multiple path). -/
theorem c8_unknown_property_raises (ctx : Ctx) (vendor_id f k : Nat)
    (args : String) (arr : Option Int) (req : ReadPropertyRequestData)
    (eapdu : ErrorAPDU)
    (hstart : ctx.started = true)
    (hbuild : build_rp_request ctx (pySplit args) arr vendor_id = .ok req)
    (hdev : ctx.dev k (.readProperty req) = .failure eapdu)
    (hreason : find_reason eapdu = .ok (.name "unknownProperty")) :
    read ctx vendor_id (f + 1) k args arr
      = .error (.noResponseFromController "APDU Abort Reason : unknownProperty") := by
  simp only [read.eq_2, hstart, Bool.true_eq_false, if_false, hbuild, hdev, hreason]
  rfl

theorem c8_unknown_property_raises_witness :
    read ctxC8 0 2 5 "2:5 analogInput 1 presentValue" none
      = .error (.noResponseFromController "APDU Abort Reason : unknownProperty") :=
  c8_unknown_property_raises ctxC8 0 1 5 "2:5 analogInput 1 presentValue" none
    ⟨(.named "analogInput", 1), .named "presentValue", none, "2:5"⟩
    (.appError (some "property") (some "unknownProperty")) rfl rfl rfl rfl

/-- Claim C7 counterexample: with a device that refuses segmentation for
the plain read and again for the fallback's first index-1 read, `read`
neither raises nor propagates the nested segmentation failure — it enters
a second fallback layer and returns the doubly nested list `[[42]]` (the
second and third conjuncts exhibit the element-level segmentation
failure). -/
theorem c7_counterexample :
    read ctxC7ce 0 9 0 "2:5 analogInput 1 presentValue" none
      = .ok (some (.list [some (.list [some (.prim (.pint 42))])]), 5)
    ∧ ctxC7ce.dev 2 (.readProperty reqIdx1C7) = .failure (.abort 4)
    ∧ find_reason (.abort 4) = .ok (.name "segmentationNotSupported") :=
  ⟨rfl, rfl, rfl⟩

/-- Claim C7 (amended): the segmentation fallback does recurse — an
element-level read that itself classifies as `segmentationNotSupported`
does not raise; it enters `_split_the_read_request` again, opening another
fallback layer. -/
theorem c7_nested_fallback_recurses (ctx : Ctx) (vendor_id f k : Nat)
    (args : String) (i : Int) (req : ReadPropertyRequestData)
    (eapdu : ErrorAPDU)
    (hstart : ctx.started = true)
    (hbuild : build_rp_request ctx (pySplit args) (some i) vendor_id = .ok req)
    (hdev : ctx.dev k (.readProperty req) = .failure eapdu)
    (hreason : find_reason eapdu = .ok (.name "segmentationNotSupported")) :
    read ctx vendor_id (f + 1) k args (some i)
      = split_the_read_request ctx vendor_id f (k + 1) args := by
  simp only [read.eq_2, hstart, Bool.true_eq_false, if_false, hbuild, hdev, hreason,
    split_the_read_request]
  rfl

theorem c7_nested_fallback_recurses_witness :
    read ctxC7ce 0 3 2 "2:5 analogInput 1 presentValue" (some 1)
      = split_the_read_request ctxC7ce 0 2 3 "2:5 analogInput 1 presentValue" :=
  c7_nested_fallback_recurses ctxC7ce 0 2 2 "2:5 analogInput 1 presentValue" 1
    reqIdx1C7 (.abort 4) rfl rfl rfl rfl

/-- Claim C10: a success response whose APDU is not the expected
acknowledgement type makes `read` (expecting `ReadPropertyACK`) and
`readMultiple` (expecting `ReadPropertyMultipleACK`) log the mismatch and
return `None` with no error raised — indistinguishable, for the caller,
from a decoded null value. -/
theorem c10_non_ack_returns_none (ctx : Ctx) (vendor_id f k kk : Nat)
    (args argsm : String) (arr : Option Int)
    (req : ReadPropertyRequestData) (reqm : RPMRequestData)
    (apdu apdum : SuccessAPDU)
    (hstart : ctx.started = true)
    (hbuild : build_rp_request ctx (pySplit args) arr vendor_id = .ok req)
    (hdev : ctx.dev k (.readProperty req) = .response apdu)
    (hnack : ∀ a, apdu ≠ .readPropertyACK a)
    (hbuildm : build_rpm_request ctx (pySplit argsm) = .ok reqm)
    (hdevm : ctx.dev kk (.readPropertyMultiple reqm) = .response apdum)
    (hnackm : ∀ rs, apdum ≠ .readPropertyMultipleACK rs) :
    read ctx vendor_id (f + 1) k args arr = .ok (none, k + 1)
    ∧ readMultiple ctx kk argsm = .ok (none, kk + 1) := by
  constructor
  · cases apdu with
    | readPropertyACK a => exact absurd rfl (hnack a)
    | readPropertyMultipleACK rs =>
        simp only [read.eq_2, hstart, Bool.true_eq_false, if_false, hbuild, hdev]
    | simpleAckPDU =>
        simp only [read.eq_2, hstart, Bool.true_eq_false, if_false, hbuild, hdev]
    | otherPDU t =>
        simp only [read.eq_2, hstart, Bool.true_eq_false, if_false, hbuild, hdev]
  · cases apdum with
    | readPropertyACK a =>
        simp only [readMultiple, hstart, Bool.true_eq_false, if_false, hbuildm, hdevm]
    | readPropertyMultipleACK rs => exact absurd rfl (hnackm rs)
    | simpleAckPDU =>
        simp only [readMultiple, hstart, Bool.true_eq_false, if_false, hbuildm, hdevm]
    | otherPDU t =>
        simp only [readMultiple, hstart, Bool.true_eq_false, if_false, hbuildm, hdevm]

theorem c10_non_ack_returns_none_witness :
    read ctxC10 0 1 0 "2:5 analogInput 1 presentValue" none = .ok (none, 1)
    ∧ readMultiple ctxC10 0 "2:5 analogInput 1 presentValue units" = .ok (none, 1) :=
  c10_non_ack_returns_none ctxC10 0 0 0 0
    "2:5 analogInput 1 presentValue" "2:5 analogInput 1 presentValue units" none
    ⟨(.named "analogInput", 1), .named "presentValue", none, "2:5"⟩
    ⟨"2:5", [⟨(.named "analogInput", 1),
      [⟨"presentValue", none⟩, ⟨"units", none⟩]⟩]⟩
    .simpleAckPDU .simpleAckPDU
    rfl rfl rfl (fun _ h => SuccessAPDU.noConfusion h)
    rfl rfl (fun _ h => SuccessAPDU.noConfusion h)

/-- Claim C3: a single-read success resolves the datatype of the
acknowledged object/property pair and decodes by the array rule: with an
array datatype and an explicit array index, index 0 is cast out as
`Unsigned` and any other index as the array's subtype; otherwise the value
is cast out with the plain resolved datatype. -/
theorem c3_decode_rule (ctx : Ctx) (vendor_id f k : Nat) (args : String)
    (arr : Option Int) (req : ReadPropertyRequestData)
    (ack : ReadPropertyACKData) (dt : Datatype)
    (hstart : ctx.started = true)
    (hbuild : build_rp_request ctx (pySplit args) arr vendor_id = .ok req)
    (hdev : ctx.dev k (.readProperty req) = .response (.readPropertyACK ack))
    (hdt : ctx.get_datatype ack.objectIdentifier.1 ack.propertyIdentifier vendor_id
             = some dt) :
    read ctx vendor_id (f + 1) k args arr
      = (decodePropertyValue dt ack.propertyArrayIndex ack.propertyValue).map
          (fun p => (some (.prim p), k + 1))
    ∧ decodePropertyValue dt ack.propertyArrayIndex ack.propertyValue
        = (match dt, ack.propertyArrayIndex with
           | .array subtype, some idx =>
               if idx = 0 then cast_out ack.propertyValue (.atomic .unsigned)
               else cast_out ack.propertyValue subtype
           | _, _ => cast_out ack.propertyValue dt) := by
  constructor
  · simp only [read.eq_2, hstart, Bool.true_eq_false, if_false, hbuild, hdev,
      interpretReadACK, hdt]
    cases hd : decodePropertyValue dt ack.propertyArrayIndex ack.propertyValue with
    | error e => rfl
    | ok p => rfl
  · cases dt with
    | atomic k2 => rfl
    | composite n => rfl
    | array subtype =>
        cases ack.propertyArrayIndex with
        | none => rfl
        | some idx => rfl

theorem c3_decode_rule_witness :
    read ctxC3w 0 1 0 "2:5 analogInput 1 presentValue" none
      = (decodePropertyValue (.array (.atomic .real)) ackC3w.propertyArrayIndex
          ackC3w.propertyValue).map (fun p => (some (.prim p), 1))
    ∧ decodePropertyValue (.array (.atomic .real)) ackC3w.propertyArrayIndex
        ackC3w.propertyValue
        = (match Datatype.array (.atomic .real), ackC3w.propertyArrayIndex with
           | .array subtype, some idx =>
               if idx = 0 then cast_out ackC3w.propertyValue (.atomic .unsigned)
               else cast_out ackC3w.propertyValue subtype
           | _, _ => cast_out ackC3w.propertyValue (.array (.atomic .real))) :=
  c3_decode_rule ctxC3w 0 0 0 "2:5 analogInput 1 presentValue" none
    ⟨(.named "analogInput", 1), .named "presentValue", none, "2:5"⟩
    ackC3w (.array (.atomic .real)) rfl rfl rfl rfl

lemma splitLoop_ok (readFn : Nat → String → Option Int → Except PyErr (Option ReadValue × Nat))
    (args : String) (vF : Int → Option ReadValue) :
    ∀ (l : List Int) (acc : List (Option ReadValue)) (c : Nat),
      (∀ (p : Nat) (i : Int), l[p]? = some i →
          readFn (c + p) args (some i) = .ok (vF i, c + p + 1)) →
      splitLoop readFn args l (.ok (acc, c)) = .ok (acc ++ l.map vF, c + l.length) := by
  intro l
  induction l with
  | nil => intro acc c _; simp [splitLoop]
  | cons i rest ih =>
      intro acc c h
      have h0 : readFn c args (some i) = .ok (vF i, c + 1) := by
        have hx := h 0 i (by simp)
        simpa using hx
      have hrest : ∀ (p : Nat) (j : Int), rest[p]? = some j →
          readFn (c + 1 + p) args (some j) = .ok (vF j, c + 1 + p + 1) := by
        intro p j hj
        have hx := h (p + 1) j (by simpa using hj)
        have e1 : c + (p + 1) = c + 1 + p := by omega
        rw [e1] at hx
        exact hx
      have hih := ih (acc ++ [vF i]) (c + 1) hrest
      simp only [splitLoop, List.foldl_cons, h0] at hih ⊢
      rw [hih]
      simp [List.append_assoc]
      omega

/-- Claim C2 (amended): when the command string carries no explicit
fifth index token (so the per-index requests are not overridden), a single
read whose failure classifies as `segmentationNotSupported` falls back to
per-index reads: it reads array index 0 for the element count N, then
issues N sequential reads for indices 1..N and returns their values as a
list of exactly N elements in ascending index order. -/
theorem c2_segmentation_fallback (ctx : Ctx) (vendor_id f k : Nat)
    (args : String) (arr : Option Int) (req0 : ReadPropertyRequestData)
    (eapdu : ErrorAPDU) (reqId : Int → ReadPropertyRequestData)
    (ack0 : ReadPropertyACKData) (ackOf : Nat → ReadPropertyACKData)
    (v : Nat → Prim) (N : Nat)
    (hstart : ctx.started = true)
    (hbuild0 : build_rp_request ctx (pySplit args) arr vendor_id = .ok req0)
    (hdev0 : ctx.dev k (.readProperty req0) = .failure eapdu)
    (hreason : find_reason eapdu = .ok (.name "segmentationNotSupported"))
    (hbuild : ∀ j : Int, build_rp_request ctx (pySplit args) (some j) vendor_id
                = .ok (reqId j))
    (hdev0i : ctx.dev (k + 1) (.readProperty (reqId 0))
                = .response (.readPropertyACK ack0))
    (hcount : interpretReadACK ctx vendor_id ack0 = .ok (.pint (N : Int)))
    (hdevi : ∀ i : Nat, 1 ≤ i → i ≤ N →
        ctx.dev (k + 1 + i) (.readProperty (reqId (i : Int)))
          = .response (.readPropertyACK (ackOf i)))
    (hvali : ∀ i : Nat, 1 ≤ i → i ≤ N →
        interpretReadACK ctx vendor_id (ackOf i) = .ok (v i)) :
    read ctx vendor_id (f + 1 + 1) k args arr =
      .ok (some (.list ((List.range N).map (fun j => some (.prim (v (j + 1)))))),
        k + 2 + N) := by
  have hr : range1to (N : Int) = (List.range N).map (fun j : Nat => (j : Int) + 1) := by
    simp only [range1to, Int.toNat_natCast]
  have h0 : read ctx vendor_id (f + 1) (k + 1) args (some 0)
      = .ok (some (.prim (.pint (N : Int))), k + 2) := by
    simp only [read.eq_2, hstart, Bool.true_eq_false, if_false, hbuild 0, hdev0i,
      hcount]
  have hElem : ∀ (p : Nat) (i : Int), (range1to (N : Int))[p]? = some i →
      read ctx vendor_id (f + 1) (k + 2 + p) args (some i)
        = .ok ((fun j : Int => some (ReadValue.prim (v j.toNat))) i, k + 2 + p + 1) := by
    intro p i hp
    rw [hr, List.getElem?_map] at hp
    rcases Nat.lt_or_ge p N with hlt | hge
    · rw [List.getElem?_range hlt] at hp
      simp only [Option.map_some'] at hp
      cases hp
      have hd := hdevi (p + 1) (by omega) (by omega)
      have hv := hvali (p + 1) (by omega) (by omega)
      have hcast : ((p + 1 : Nat) : Int) = (p : Int) + 1 := by omega
      rw [hcast] at hd
      have hctr : k + 1 + (p + 1) = k + 2 + p := by omega
      rw [hctr] at hd
      have htn : ((p : Int) + 1).toNat = p + 1 := by omega
      simp only [read.eq_2, hstart, Bool.true_eq_false, if_false,
        hbuild ((p : Int) + 1), hd, hv, htn]
    · rw [List.getElem?_eq_none (by simpa using hge)] at hp
      simp at hp
  rw [read.eq_2]
  simp only [hstart, Bool.true_eq_false, if_false, hbuild0, hdev0, hreason,
    eq_self_iff_true, if_true]
  simp only [split_body, h0]
  rw [splitLoop_ok (fun k' a i => read ctx vendor_id (f + 1) k' a i) args
    (fun j : Int => some (ReadValue.prim (v j.toNat))) (range1to (N : Int))
    [] (k + 2) hElem]
  rw [hr]
  simp only [List.nil_append, List.map_map, List.length_map, List.length_range]
  have hmap : (List.range N).map
      ((fun j : Int => some (ReadValue.prim (v j.toNat))) ∘ (fun j : Nat => (j : Int) + 1))
      = (List.range N).map (fun j => some (.prim (v (j + 1)))) := by
    apply List.map_congr_left
    intro a _
    simp only [Function.comp_apply]
    have : ((a : Int) + 1).toNat = a + 1 := by omega
    rw [this]
  rw [hmap]

/-- Claim C2 counterexample: with a five-token command string, the fallback
does not read index 0 — `build_rp_request` overrides every per-index
request with the literal fifth token.  The device here would report an
element count of 2 at index 0 (second and third conjuncts), yet the read
returns a list of 7 elements (the value the device serves at the literal
index 3), not 2. -/
theorem c2_counterexample :
    read ctxC2ce 0 3 0 "2:5 analogInput 1 presentValue 3" none
      = .ok (some (.list (List.replicate 7 (some (.prim (.pint 7))))), 9)
    ∧ ctxC2ce.dev 1 (.readProperty reqIdx0C2) = .response (.readPropertyACK ackIdx0C2)
    ∧ interpretReadACK ctxC2ce 0 ackIdx0C2 = .ok (.pint 2) :=
  ⟨rfl, rfl, rfl⟩

theorem c2_segmentation_fallback_witness :
    read ctxC2w 0 5 0 "2:5 analogInput 1 presentValue" none
      = .ok (some (.list [some (.prim (.pint 101)), some (.prim (.pint 102))]), 4) := by
  have h := c2_segmentation_fallback ctxC2w 0 3 0 "2:5 analogInput 1 presentValue" none
    ⟨(.named "analogInput", 1), .named "presentValue", none, "2:5"⟩
    (.abort 4) reqC2w
    ⟨(.named "analogInput", 1), .named "presentValue", some 0,
      ⟨.atomic .unsigned, .pint 2⟩⟩
    ackC2w (fun i => .pint (100 + (i : Int))) 2
    rfl rfl rfl rfl (fun _ => rfl) rfl rfl
    (by intro i h1 h2; interval_cases i <;> rfl)
    (by intro i h1 h2; interval_cases i <;> rfl)
  exact h.trans (by rfl)

/-- Claim C6: for an atomic resolved datatype, decoding the encoding is the
identity — whenever the Write encoder's coercion of the value token (parse
per the concrete primitive, then wrap in the datatype) yields the
primitive `p`, the built request carries exactly `⟨datatype, p⟩`, and the
Read decoder's `cast_out` for that datatype on an acknowledgement echoing
the request's payload returns `p` again. -/
theorem c6_atomic_roundtrip (ctx : Ctx) (vendor_id : Nat)
    (addr ot it pt token : String) (k : AtomicKind) (p : Prim)
    (req : WritePropertyRequestData)
    (hnull : token ≠ "null")
    (hdt : ctx.get_datatype (parseObjTypeTok ot) (parsePropIdTok pt) vendor_id
             = some (.atomic k))
    (henc : encodeAtomic k (.str token) = .ok p)
    (hbuild : build_wp_request ctx [addr, ot, it, pt, token] vendor_id = .ok req) :
    req.propertyValue = ⟨.atomic k, p⟩
    ∧ interpretReadACK ctx vendor_id
        ⟨req.objectIdentifier, req.propertyIdentifier, none, req.propertyValue⟩
      = .ok p := by
  have hnf : build_wp_request ctx [addr, ot, it, pt, token] vendor_id =
      match pyIntOfString it with
      | .error e => .error e
      | .ok obj_inst =>
          match coerceWriteValue
              (ctx.get_datatype (parseObjTypeTok ot) (parsePropIdTok pt) vendor_id)
              none (.str token) with
          | .error e => .error e
          | .ok value =>
              match cast_in value with
              | .error e => .error e
              | .ok ev =>
                  .ok { objectIdentifier := (parseObjTypeTok ot, obj_inst)
                        propertyIdentifier := parsePropIdTok pt
                        pduDestination := addr
                        propertyValue := ev
                        propertyArrayIndex := none
                        priority := none } := rfl
  rw [hnf] at hbuild
  cases hinst : pyIntOfString it with
  | error e => rw [hinst] at hbuild; cases hbuild
  | ok n =>
      rw [hinst, hdt] at hbuild
      have hco : coerceWriteValue (some (.atomic k)) none (.str token)
          = .ok (.wrapped (.atomic k) p) := by
        have hne : (PyVal.str token) ≠ (PyVal.str "null") := by
          intro hcontra
          exact hnull (PyVal.str.injEq token "null" ▸ hcontra ▸ rfl)
        simp only [coerceWriteValue, if_neg hne, henc]
      rw [hco] at hbuild
      simp only [cast_in] at hbuild
      cases hbuild
      refine ⟨rfl, ?_⟩
      simp only [interpretReadACK, hdt, decodePropertyValue, cast_out, eq_self_iff_true,
        if_true]

theorem c6_atomic_roundtrip_witness :
    reqC6w.propertyValue = ⟨.atomic .integer, .pint 100⟩
    ∧ interpretReadACK ctxC6w 0
        ⟨reqC6w.objectIdentifier, reqC6w.propertyIdentifier, none,
          reqC6w.propertyValue⟩
      = .ok (.pint 100) :=
  c6_atomic_roundtrip ctxC6w 0 "2:5" "analogValue" "1" "presentValue" "100"
    .integer (.pint 100) reqC6w (by decide) rfl rfl rfl
